import Mathlib

/- A shallow embedding of the mpegflow motion-vector extraction tool
   (src/main.cpp).  Machine integers are modelled as Int, with explicit
   reduction modulo 2^64 where the code converts an int to size_t; the
   C integer division operator is modelled by Int.tdiv, which truncates
   toward zero exactly as C++11 division does. -/

namespace Mpegflow

/-- One motion vector record as delivered by the decoder side channel:
the fields src_x, src_y, dst_x, dst_y of AVMotionVector that main.cpp
reads (they are int16_t in libavutil). -/
structure AVMotionVector where
  src_x : Int
  src_y : Int
  dst_x : Int
  dst_y : Int
deriving DecidableEq

/-- The FrameInfo record of main.cpp.  The dx, dy and occupancy matrices
are modelled as total functions on cell indices (the code only ever reads
and writes cells inside the 512 by 512 square). -/
structure FrameInfo where
  dx : Nat → Nat → Int
  dy : Nat → Nat → Int
  occupancy : Nat → Nat → Bool
  Pts : Int
  FrameIndex : Int
  PictType : Char
  Shape : Nat × Nat
  Empty : Bool

/-- FrameInfo::GRID_STEP. -/
def GRID_STEP : Nat := 16

/-- FrameInfo::MAX_GRID_SIZE. -/
def MAX_GRID_SIZE : Nat := 512

/-- Number of values of the 64-bit size_t type. -/
def USIZE : Nat := 2 ^ 64

/-- Conversion of a C int value to size_t: reduction modulo 2^64
(negative values wrap around to large unsigned values). -/
def toSizeT (x : Int) : Nat := (x % (USIZE : Int)).toNat

/-- The size_t expression b - 1: ordinary subtraction for b at least one,
wrap-around for b = 0. -/
def sizeSub1 (n : Nat) : Nat := if n = 0 then USIZE - 1 else n - 1

/-- The cell index computation of output_vectors_std, lines 243 to 246:
size_t i = coord / GRID_STEP (int division, then size_t conversion),
followed by max(size_t(0), min(i, bound - 1)) in size_t arithmetic. -/
def clipIndex (coord : Int) (bound : Nat) : Nat :=
  max 0 (min (toSizeT (Int.tdiv coord (GRID_STEP : Int))) (sizeSub1 bound))

/-- Modelled from the spec: the cell formula the specification states,
row = clip(floor(src_y / 16), 0, rows - 1) with floor division over the
integers.  Used only to compare the specified formula with clipIndex,
the formula the code computes. -/
def clipIndexSpec (coord : Int) (bound : Nat) : Int :=
  max 0 (min (Int.fdiv coord 16) ((bound : Int) - 1))

/-- The fresh FrameInfo built at the top of output_vectors_std, lines
231 to 235, together with the zero initialisation performed by the
FrameInfo constructor: zero matrices, Empty = true, and the shape
(min(height/16, 512), min(width/16, 512)). -/
def initFrame (frameIndex pts : Int) (pictType : Char) (frameWidth frameHeight : Nat) :
    FrameInfo where
  dx := fun _ _ => 0
  dy := fun _ _ => 0
  occupancy := fun _ _ => false
  Pts := pts
  FrameIndex := frameIndex
  PictType := pictType
  Shape := (min (frameHeight / GRID_STEP) MAX_GRID_SIZE, min (frameWidth / GRID_STEP) MAX_GRID_SIZE)
  Empty := true

/-- The body of the vector loop of output_vectors_std, lines 237 to 252:
the displacement (src - dst) is written into the clipped cell of the dx
and dy matrices, the occupancy cell is assigned false (exactly as in the
code), and Empty is set to false. -/
def writeVector (f : FrameInfo) (mv : AVMotionVector) : FrameInfo :=
  let mvdx := mv.src_x - mv.dst_x
  let mvdy := mv.src_y - mv.dst_y
  let i := clipIndex mv.src_y f.Shape.1
  let j := clipIndex mv.src_x f.Shape.2
  { f with
    Empty := false
    dx := fun a b => if a = i ∧ b = j then mvdx else f.dx a b
    dy := fun a b => if a = i ∧ b = j then mvdy else f.dy a b
    occupancy := fun a b => if a = i ∧ b = j then false else f.occupancy a b }

/-- The whole vector loop of output_vectors_std: the vectors are written
into the frame in list order. -/
def aggregate (f : FrameInfo) (mvs : List AVMotionVector) : FrameInfo :=
  mvs.foldl writeVector f

/-- The grid cell a motion vector is written into, for a frame of the
given shape. -/
def cellOf (shape : Nat × Nat) (mv : AVMotionVector) : Nat × Nat :=
  (clipIndex mv.src_y shape.1, clipIndex mv.src_x shape.2)

/-- FrameInfo::InterpolateFlow, lines 179 to 190: Empty is set to false
and every cell of dx and dy inside the shape of the receiver is replaced
by the half sum of the neighbours, with C int division (truncation
toward zero). -/
def FrameInfo.InterpolateFlow (self prevF nextF : FrameInfo) : FrameInfo :=
  { self with
    Empty := false
    dx := fun i j =>
      if i < self.Shape.1 ∧ j < self.Shape.2 then
        Int.tdiv (prevF.dx i j + nextF.dx i j) 2
      else self.dx i j
    dy := fun i j =>
      if i < self.Shape.1 ∧ j < self.Shape.2 then
        Int.tdiv (prevF.dy i j + nextF.dy i j) 2
      else self.dy i j }

/-- One call of output_vectors_std, lines 227 to 277, for a frame with
the given header data and vector list, acting on the buffer prev of
pending frames.  Returns the list of frames printed by this call, in
print order, and the new buffer.  The structure mirrors the code: if
the vector list is not empty, either the interpolation branch (buffer
of exactly two entries whose first is not empty) prints the second
buffered entry interpolated between the first and cur, or every
buffered entry is printed unchanged; then the buffer is cleared and cur
printed.  If frameIndex is -1 the buffer as it is at that point is
printed.  Finally cur is pushed onto the buffer. -/
def output_vectors_std (prev : List FrameInfo) (frameIndex pts : Int) (pictType : Char)
    (motionVectors : List AVMotionVector) (frameWidth frameHeight : Nat) :
    List FrameInfo × List FrameInfo :=
  let cur := aggregate (initFrame frameIndex pts pictType frameWidth frameHeight) motionVectors
  let step :=
    if motionVectors.isEmpty then (([] : List FrameInfo), prev)
    else
      match prev with
      | [a, b] =>
          if a.Empty = false then ([FrameInfo.InterpolateFlow b a cur, cur], ([] : List FrameInfo))
          else (prev ++ [cur], ([] : List FrameInfo))
      | _ => (prev ++ [cur], ([] : List FrameInfo))
  let flushOut := if frameIndex = -1 then step.2 else ([] : List FrameInfo)
  (step.1 ++ flushOut, step.2 ++ [cur])

/-- One decoded frame as handed to output_vectors_std: frame index,
pts, picture type and motion vector list. -/
structure ArrivalInput where
  frameIndex : Int
  pts : Int
  pictType : Char
  mvs : List AVMotionVector

/-- Folding step for a sequence of output_vectors_std calls: the first
component accumulates everything printed so far, the second is the
static buffer prev. -/
def stdFold (frameWidth frameHeight : Nat) (acc : List FrameInfo × List FrameInfo)
    (inp : ArrivalInput) : List FrameInfo × List FrameInfo :=
  let r := output_vectors_std acc.2 inp.frameIndex inp.pts inp.pictType inp.mvs
      frameWidth frameHeight
  (acc.1 ++ r.1, r.2)

/-- A sequence of output_vectors_std calls starting from the empty
buffer, as the main loop performs them. -/
def runStd (frameWidth frameHeight : Nat) (inputs : List ArrivalInput) :
    List FrameInfo × List FrameInfo :=
  inputs.foldl (stdFold frameWidth frameHeight) ([], [])

/-- The main loop of main in grid mode: frames are numbered from one,
and after the loop there is one extra call of output_vectors_std with
frameIndex = -1 that still receives the pts, picture type and motion
vector list of the last decoded frame (the variables of main are not
reset when read_frame fails at end of stream).  The recursion carries
that last header data. -/
def main_grid_aux (frameWidth frameHeight : Nat) :
    Int → Int × Char × List AVMotionVector → List (Int × Char × List AVMotionVector) →
    List FrameInfo × List FrameInfo → List FrameInfo
  | _, last, [], st =>
    st.1 ++ (output_vectors_std st.2 (-1) last.1 last.2.1 last.2.2 frameWidth frameHeight).1
  | idx, _, fr :: rest, st =>
    let r := output_vectors_std st.2 idx fr.1 fr.2.1 fr.2.2 frameWidth frameHeight
    main_grid_aux frameWidth frameHeight (idx + 1) fr rest (st.1 ++ r.1, r.2)

/-- Everything printed by a grid mode run of main over the given frames
(each frame is its pts, picture type and motion vector list). -/
def main_grid (frameWidth frameHeight : Nat)
    (frames : List (Int × Char × List AVMotionVector)) : List FrameInfo :=
  main_grid_aux frameWidth frameHeight 1 (0, 'N', []) frames ([], [])

/-- One output line of output_vectors_raw, lines 214 to 225: either the
header line (pts, frame index, picture type and the vector count printed
in the shape field) or one vector line (source position and
displacement). -/
inductive RawLine where
  | header (pts frameIndex : Int) (pictType : Char) (count : Nat)
  | vec (src_x src_y mvdx mvdy : Int)
deriving DecidableEq

/-- output_vectors_raw: the header line followed by one line per motion
vector, in list order. -/
def output_vectors_raw (frameIndex pts : Int) (pictType : Char)
    (motionVectors : List AVMotionVector) : List RawLine :=
  RawLine.header pts frameIndex pictType motionVectors.length ::
    motionVectors.map (fun mv =>
      RawLine.vec mv.src_x mv.src_y (mv.src_x - mv.dst_x) (mv.src_y - mv.dst_y))

/-- The outcome of one avcodec_decode_video2 attempt, as main.cpp reads
it: the return value (bytes consumed, negative on decode error) and
whether a complete frame was produced. -/
structure DecodeResult where
  ret : Int
  got_frame : Bool
deriving DecidableEq

/-- One compressed packet: its stream index and remaining byte count
(the data pointer is represented by the remaining size alone). -/
structure Packet where
  stream_index : Int
  size : Nat
deriving DecidableEq

/-- The static state of read_packets: the initialized flag, the packet
as read from the container (pkt), the draining copy (pktCopy) and a
counter of decode attempts made so far, used to index into the decoder
oracle. -/
structure RPState where
  initialized : Bool
  pkt : Packet
  pktCopy : Packet
  k : Nat
deriving DecidableEq

/-- process_frame, lines 82 to 95: on a negative return value the packet
is left untouched and no frame is reported; otherwise the consumed byte
count is clamped to the remaining size (the FFMIN guard of line 91), the
packet is advanced, and got_frame is reported. -/
def process_frame (res : DecodeResult) (pkt : Packet) : Packet × Bool :=
  if res.ret < 0 then (pkt, false)
  else ({ pkt with size := pkt.size - min res.ret.toNat pkt.size }, res.got_frame)

/-- The part of the read_packets loop that starts at av_read_frame,
entered with initialized = false: packets are pulled from the container
list; a packet of another stream is dropped; a packet of the target
stream becomes pkt and pktCopy and is fed to the decoder once - on a
frame the function returns true keeping initialized, otherwise the
packet is dropped (av_free_packet) and the next packet is pulled.  When
the container is exhausted the loop breaks and the original pkt is fed
one final time.  The result carries the outcome, the new static state,
the packets not yet pulled, and the sizes fed to the decoder by this
call, in order. -/
def drainLoop (dec : Nat → DecodeResult) (vidIdx : Int) :
    RPState → List Packet → Bool × RPState × List Packet × List Nat
  | s, [] =>
    let pr := process_frame (dec s.k) s.pkt
    (pr.2, { s with pkt := pr.1, k := s.k + 1 }, [], [s.pkt.size])
  | s, p :: rest =>
    if p.stream_index ≠ vidIdx then
      drainLoop dec vidIdx { s with pkt := p, pktCopy := p, initialized := false } rest
    else
      let s1 : RPState := { s with pkt := p, pktCopy := p, initialized := true }
      let pr := process_frame (dec s1.k) s1.pktCopy
      let s2 : RPState := { s1 with pktCopy := pr.1, k := s1.k + 1 }
      if pr.2 then (true, s2, rest, [p.size])
      else
        let r := drainLoop dec vidIdx { s2 with initialized := false } rest
        (r.1, r.2.1, r.2.2.1, p.size :: r.2.2.2)

/-- read_packets, lines 97 to 130: when the previous call left a packet
initialized, its remaining bytes (pktCopy) are fed to the decoder first;
on a frame the call returns at once, otherwise the packet is dropped and
the container loop of drainLoop runs. -/
def read_packets (dec : Nat → DecodeResult) (vidIdx : Int) (s : RPState)
    (pkts : List Packet) : Bool × RPState × List Packet × List Nat :=
  if s.initialized then
    let pr := process_frame (dec s.k) s.pktCopy
    let s1 : RPState := { s with pktCopy := pr.1, k := s.k + 1 }
    if pr.2 then (true, s1, pkts, [s.pktCopy.size])
    else
      let r := drainLoop dec vidIdx { s1 with initialized := false } pkts
      (r.1, r.2.1, r.2.2.1, s.pktCopy.size :: r.2.2.2)
  else drainLoop dec vidIdx s pkts

/-- The static state read_packets is left in by a decode attempt that
produced no frame: the draining copy advanced past the consumed bytes,
the attempt counter advanced, and initialized reset to false (the code
then frees the packet and falls through to av_read_frame). -/
def afterFailState (dec : Nat → DecodeResult) (s : RPState) : RPState :=
  { s with
    pktCopy := (process_frame (dec s.k) s.pktCopy).1
    k := s.k + 1
    initialized := false }

/-- Decoder oracle for the claim C5 instances: the first attempt
consumes one byte and produces no frame, every later attempt consumes
five bytes and produces a frame. -/
def c5dec : Nat → DecodeResult := fun k => if k = 0 then ⟨1, false⟩ else ⟨5, true⟩

/-- Claim C1 counterexample: two neighbouring non-empty frames of shape
(1, 1) with cell values 1 and -2 have the odd negative sum -1, and the
interpolated gap cell is 0 (C truncating division), not the floor value
-1 the claim specifies. -/
theorem c1_counterexample :
    ((initFrame 2 1 'B' 16 16).InterpolateFlow
        (aggregate (initFrame 1 0 'P' 16 16) [⟨0, 0, -1, 0⟩])
        (aggregate (initFrame 3 2 'P' 16 16) [⟨0, 0, 2, 0⟩])).dx 0 0 = 0 ∧
    (aggregate (initFrame 1 0 'P' 16 16) [⟨0, 0, -1, 0⟩]).dx 0 0 = 1 ∧
    (aggregate (initFrame 3 2 'P' 16 16) [⟨0, 0, 2, 0⟩]).dx 0 0 = -2 ∧
    Int.fdiv (1 + -2) 2 = -1 ∧
    (aggregate (initFrame 1 0 'P' 16 16) [⟨0, 0, -1, 0⟩]).Empty = false ∧
    (aggregate (initFrame 3 2 'P' 16 16) [⟨0, 0, 2, 0⟩]).Empty = false ∧
    ((0 : Int) ≠ -1) := by decide

/-- Claim C1 (amended): interpolating a gap frame sets, for every cell
inside the shape, gap.dx[r][c] to (prev.dx[r][c] + cur.dx[r][c]) / 2
with C truncating division (round toward zero, so equal to the floor
only when the sum is nonnegative), and likewise for dy. -/
theorem c1_interpolation_rounds_toward_zero (gap prevF nextF : FrameInfo) (r c : Nat)
    (hr : r < gap.Shape.1) (hc : c < gap.Shape.2) :
    (gap.InterpolateFlow prevF nextF).dx r c = Int.tdiv (prevF.dx r c + nextF.dx r c) 2 ∧
    (gap.InterpolateFlow prevF nextF).dy r c = Int.tdiv (prevF.dy r c + nextF.dy r c) 2 := by
  constructor <;> simp [FrameInfo.InterpolateFlow, hr, hc]

/-- Witness for the amended claim C1 at a concrete gap frame of shape
(1, 1) and cell (0, 0). -/
theorem c1_interpolation_rounds_toward_zero_witness :
    ((initFrame 2 1 'B' 16 16).InterpolateFlow (initFrame 1 0 'P' 16 16)
        (initFrame 3 2 'P' 16 16)).dx 0 0 =
      Int.tdiv ((initFrame 1 0 'P' 16 16).dx 0 0 + (initFrame 3 2 'P' 16 16).dx 0 0) 2 :=
  (c1_interpolation_rounds_toward_zero (initFrame 2 1 'B' 16 16) (initFrame 1 0 'P' 16 16)
      (initFrame 3 2 'P' 16 16) 0 0 (by decide) (by decide)).1

/-- Claim C7 counterexample: an all-empty gap frame has Empty = true,
and after InterpolateFlow its Empty flag is false - the flag is not
kept, InterpolateFlow assigns it. -/
theorem c7_counterexample :
    (initFrame 2 1 'B' 16 16).Empty = true ∧
    ((initFrame 2 1 'B' 16 16).InterpolateFlow
        (aggregate (initFrame 1 0 'P' 16 16) [⟨0, 0, -1, 0⟩])
        (aggregate (initFrame 3 2 'P' 16 16) [⟨0, 0, 2, 0⟩])).Empty = false := by decide

/-- Claim C7 (amended): InterpolateFlow keeps the timestamp, frame
index, picture type tag, shape and occupancy of the gap frame and only
overwrites dx and dy inside the shape, but it also sets the Empty flag
to false. -/
theorem c7_interpolation_field_effects (self prevF nextF : FrameInfo) :
    (self.InterpolateFlow prevF nextF).Pts = self.Pts ∧
    (self.InterpolateFlow prevF nextF).FrameIndex = self.FrameIndex ∧
    (self.InterpolateFlow prevF nextF).PictType = self.PictType ∧
    (self.InterpolateFlow prevF nextF).Shape = self.Shape ∧
    (self.InterpolateFlow prevF nextF).occupancy = self.occupancy ∧
    (self.InterpolateFlow prevF nextF).Empty = false ∧
    (∀ i j, ¬(i < self.Shape.1 ∧ j < self.Shape.2) →
      (self.InterpolateFlow prevF nextF).dx i j = self.dx i j ∧
      (self.InterpolateFlow prevF nextF).dy i j = self.dy i j) := by
  refine ⟨rfl, rfl, rfl, rfl, rfl, rfl, fun i j h => ?_⟩
  constructor <;> simp [FrameInfo.InterpolateFlow, h]

/-- Witness for the amended claim C7 at concrete frames, checking a kept
header field and an out-of-shape cell. -/
theorem c7_interpolation_field_effects_witness :
    ((initFrame 2 1 'B' 16 16).InterpolateFlow (initFrame 1 0 'P' 16 16)
        (initFrame 3 2 'P' 16 16)).Pts = (initFrame 2 1 'B' 16 16).Pts ∧
    ((initFrame 2 1 'B' 16 16).InterpolateFlow (initFrame 1 0 'P' 16 16)
        (initFrame 3 2 'P' 16 16)).dx 600 0 = (initFrame 2 1 'B' 16 16).dx 600 0 := by
  have h := c7_interpolation_field_effects (initFrame 2 1 'B' 16 16) (initFrame 1 0 'P' 16 16)
    (initFrame 3 2 'P' 16 16)
  exact ⟨h.1, (h.2.2.2.2.2.2 600 0 (by decide)).1⟩

/-- Claim C9: raw mode output for a frame is the header line (carrying
pts, frame index, picture type and the vector count) followed by exactly
one line per vector with its source position and displacement; a frame
with no vectors yields the header line alone. -/
theorem c9_raw_line_count (frameIndex pts : Int) (pictType : Char)
    (mvs : List AVMotionVector) :
    (output_vectors_raw frameIndex pts pictType mvs).length = mvs.length + 1 ∧
    (output_vectors_raw frameIndex pts pictType mvs).head? =
      some (RawLine.header pts frameIndex pictType mvs.length) ∧
    (∀ k (hk : k < mvs.length),
      (output_vectors_raw frameIndex pts pictType mvs)[k + 1]? =
        some (RawLine.vec mvs[k].src_x mvs[k].src_y
          (mvs[k].src_x - mvs[k].dst_x) (mvs[k].src_y - mvs[k].dst_y))) ∧
    (mvs = [] →
      output_vectors_raw frameIndex pts pictType mvs =
        [RawLine.header pts frameIndex pictType 0]) := by
  refine ⟨by simp [output_vectors_raw], by simp [output_vectors_raw], ?_, ?_⟩
  · intro k hk
    simp [output_vectors_raw, List.getElem?_map, List.getElem?_eq_getElem hk]
  · intro h
    simp [output_vectors_raw, h]

/-- Witness for claim C9 at a one vector frame. -/
theorem c9_raw_line_count_witness :
    (output_vectors_raw 7 5 'I' [⟨1, 2, 3, 4⟩]).length = 2 ∧
    (output_vectors_raw 7 5 'I' [⟨1, 2, 3, 4⟩])[1]? =
      some (RawLine.vec 1 2 (1 - 3) (2 - 4)) := by
  have h := c9_raw_line_count 7 5 'I' [⟨1, 2, 3, 4⟩]
  exact ⟨h.1, h.2.2.1 0 (by decide)⟩

/-- Claim C4 counterexample: a vector with source row coordinate -16 in
a 2 by 2 grid is written into row 1 (the far edge, by truncation and
size_t wrap-around), while the formula of the claim, clip of the floor
quotient into [0, rows - 1], gives row 0. -/
theorem c4_counterexample :
    clipIndexSpec (-16) 2 = 0 ∧
    clipIndex (-16) 2 = 1 ∧
    (aggregate (initFrame 1 0 'P' 32 32) [⟨0, -16, -3, 0⟩]).dx 1 0 = 3 ∧
    (aggregate (initFrame 1 0 'P' 32 32) [⟨0, -16, -3, 0⟩]).dx 0 0 = 0 ∧
    ((1 : Nat) ≠ 0) := by decide

/-- Claim C4 (amended): for int16 source coordinates and a grid bound
between 1 and 512, the computed index always lies below the bound; for
a nonnegative coordinate it is min(coord / 16, bound - 1) as the claim
states, but a negative coordinate is not clipped to 0: coordinates in
(-16, 0) land at 0 only because C division truncates toward zero, and
coordinates at or below -16 wrap around through size_t and land at
bound - 1, the far edge. -/
theorem c4_clip_characterization (coord : Int) (rows : Nat)
    (h1 : 1 ≤ rows) (h2 : rows ≤ 512) (h3 : -32768 ≤ coord) (h4 : coord ≤ 32767) :
    clipIndex coord rows < rows ∧
    (0 ≤ coord → clipIndex coord rows = min (coord.toNat / 16) (rows - 1)) ∧
    (-16 < coord → coord < 0 → clipIndex coord rows = 0) ∧
    (coord ≤ -16 → clipIndex coord rows = rows - 1) := by
  have hrne : ¬ rows = 0 := by omega
  rcases le_or_lt 0 coord with hpos | hneg
  · have htd : Int.tdiv coord (GRID_STEP : Int) = coord / 16 := by
      have : ((GRID_STEP : Nat) : Int) = 16 := by norm_num [GRID_STEP]
      rw [this]
      exact Int.tdiv_eq_ediv hpos (by norm_num)
    simp only [clipIndex, toSizeT, sizeSub1, USIZE, if_neg hrne, htd]
    refine ⟨?_, ?_, ?_, ?_⟩ <;> omega
  · obtain ⟨m, hm⟩ : ∃ m : Nat, coord = -(m : Int) := ⟨(-coord).toNat, by omega⟩
    subst hm
    have htd : Int.tdiv (-(m : Int)) (GRID_STEP : Int) = -((m / 16 : Nat) : Int) := by
      have h16 : ((GRID_STEP : Nat) : Int) = ((16 : Nat) : Int) := by norm_num [GRID_STEP]
      rw [h16, Int.neg_tdiv, ← Int.ofNat_tdiv]
    simp only [clipIndex, toSizeT, sizeSub1, USIZE, if_neg hrne, htd]
    refine ⟨?_, ?_, ?_, ?_⟩ <;> omega

/-- Witness for the amended claim C4 at coordinate -20 with two rows:
the index is rows - 1 = 1 and lies below the bound. -/
theorem c4_clip_characterization_witness :
    clipIndex (-20) 2 = 2 - 1 ∧ clipIndex (-20) 2 < 2 :=
  ⟨(c4_clip_characterization (-20) 2 (by decide) (by decide) (by decide)
      (by decide)).2.2.2 (by decide),
   (c4_clip_characterization (-20) 2 (by decide) (by decide) (by decide) (by decide)).1⟩

/-- Helper: with an empty vector list, a call of output_vectors_std
prints nothing through its first branch and only appends the fresh all
zero frame to the buffer. -/
theorem output_vectors_std_buffer_of_empty (prev : List FrameInfo) (frameIndex pts : Int)
    (pictType : Char) (w h : Nat) :
    (output_vectors_std prev frameIndex pts pictType [] w h).2 =
      prev ++ [initFrame frameIndex pts pictType w h] := by
  simp [output_vectors_std, aggregate]

/-- Helper: with a non-empty vector list, a call of output_vectors_std
always leaves the buffer holding exactly the new frame, whatever the
buffer held before. -/
theorem output_vectors_std_buffer_of_nonempty (prev : List FrameInfo) (frameIndex pts : Int)
    (pictType : Char) (mvs : List AVMotionVector) (w h : Nat) (hne : mvs ≠ []) :
    (output_vectors_std prev frameIndex pts pictType mvs w h).2 =
      [aggregate (initFrame frameIndex pts pictType w h) mvs] := by
  have hE : mvs.isEmpty = false := by
    cases mvs with
    | nil => exact absurd rfl hne
    | cons x xs => rfl
  rcases prev with _ | ⟨a, _ | ⟨b, _ | ⟨c, t⟩⟩⟩
  · simp [output_vectors_std, hE]
  · simp [output_vectors_std, hE]
  · by_cases hA : a.Empty = false
    · simp [output_vectors_std, hE, hA]
    · simp [output_vectors_std, hE, hA]
  · simp [output_vectors_std, hE]

/-- Helper: processing a run of n frames with no vectors grows the
buffer by exactly n entries. -/
theorem runStd_replicate_empty_length (w h : Nat) (pts : Int) (pt : Char) :
    ∀ (n : Nat) (acc : List FrameInfo × List FrameInfo),
      (List.foldl (stdFold w h) acc
          (List.replicate n ⟨1, pts, pt, []⟩)).2.length = acc.2.length + n := by
  intro n
  induction n with
  | zero => intro acc; simp
  | succ n ih =>
    intro acc
    have hstep : (stdFold w h acc ⟨1, pts, pt, []⟩).2.length = acc.2.length + 1 := by
      simp [stdFold, output_vectors_std_buffer_of_empty]
    rw [List.replicate_succ, List.foldl_cons, ih]
    omega

/-- Claim C2 counterexample: a run of a non-empty, an empty and a
non-empty frame.  When the third frame arrives the buffer holds exactly
two entries and the first of them is non-empty, yet the call prints
exactly two frames (the interpolated gap and the new frame), not the
three the claim states - the first buffered entry is not printed again
by that call. -/
theorem c2_counterexample :
    (runStd 16 16 [⟨1, 0, 'P', [⟨0, 0, -10, 0⟩]⟩, ⟨2, 1, 'B', []⟩]).2.length = 2 ∧
    ((runStd 16 16 [⟨1, 0, 'P', [⟨0, 0, -10, 0⟩]⟩, ⟨2, 1, 'B', []⟩]).2.head?.map
        FrameInfo.Empty) = some false ∧
    (output_vectors_std
        (runStd 16 16 [⟨1, 0, 'P', [⟨0, 0, -10, 0⟩]⟩, ⟨2, 1, 'B', []⟩]).2
        3 2 'P' [⟨0, 0, -20, 0⟩] 16 16).1.length = 2 ∧
    ((2 : Nat) ≠ 3) := by decide

/-- Claim C2 (amended): when a non-empty frame cur arrives while the
buffer holds exactly two entries whose first is non-empty, the call
emits exactly two frames, in order the second buffered entry with its
dx and dy replaced by interpolated values and then cur itself; the
first buffered entry is not emitted by this call (it was already
emitted by the call at which it arrived), and the buffer is left
holding cur alone. -/
theorem c2_interpolation_emits_two_frames (a b : FrameInfo) (frameIndex pts : Int)
    (pictType : Char) (mvs : List AVMotionVector) (w h : Nat)
    (hne : mvs ≠ []) (ha : a.Empty = false) (hfi : frameIndex ≠ -1) :
    (output_vectors_std [a, b] frameIndex pts pictType mvs w h).1 =
      [b.InterpolateFlow a (aggregate (initFrame frameIndex pts pictType w h) mvs),
       aggregate (initFrame frameIndex pts pictType w h) mvs] ∧
    (output_vectors_std [a, b] frameIndex pts pictType mvs w h).2 =
      [aggregate (initFrame frameIndex pts pictType w h) mvs] := by
  have hE : mvs.isEmpty = false := by
    cases mvs with
    | nil => exact absurd rfl hne
    | cons x xs => rfl
  constructor <;> simp [output_vectors_std, hE, ha, hfi]

/-- Witness for the amended claim C2 at concrete frames. -/
theorem c2_interpolation_emits_two_frames_witness :
    (output_vectors_std
        [aggregate (initFrame 1 0 'P' 16 16) [⟨0, 0, -10, 0⟩], initFrame 2 1 'B' 16 16]
        3 2 'P' [⟨0, 0, -20, 0⟩] 16 16).1 =
      [(initFrame 2 1 'B' 16 16).InterpolateFlow
          (aggregate (initFrame 1 0 'P' 16 16) [⟨0, 0, -10, 0⟩])
          (aggregate (initFrame 3 2 'P' 16 16) [⟨0, 0, -20, 0⟩]),
       aggregate (initFrame 3 2 'P' 16 16) [⟨0, 0, -20, 0⟩]] :=
  (c2_interpolation_emits_two_frames
      (aggregate (initFrame 1 0 'P' 16 16) [⟨0, 0, -10, 0⟩]) (initFrame 2 1 'B' 16 16)
      3 2 'P' [⟨0, 0, -20, 0⟩] 16 16 (by decide) (by decide) (by decide)).1

/-- Claim C3 counterexample: after three consecutive empty frames the
buffer holds three entries, exceeding the bound of two the claim
states. -/
theorem c3_counterexample :
    (runStd 16 16 [⟨1, 0, 'B', []⟩, ⟨2, 1, 'B', []⟩, ⟨3, 2, 'B', []⟩]).2.length = 3 ∧
    ¬ ((3 : Nat) ≤ 2) := by decide

/-- Claim C3 (amended): the buffer is not bounded by two entries.  A
frame with vectors always resets the buffer to a single entry, but each
frame without vectors is pushed without any emission, so a run of n
consecutive empty frames from the start leaves n buffered entries - the
occupancy of the buffer is bounded only by the length of the empty
run. -/
theorem c3_buffer_unbounded :
    (∀ (w h n : Nat) (pts : Int) (pt : Char),
      (runStd w h (List.replicate n ⟨1, pts, pt, []⟩)).2.length = n) ∧
    (∀ (prev : List FrameInfo) (frameIndex pts : Int) (pt : Char)
        (mvs : List AVMotionVector) (w h : Nat), mvs ≠ [] →
      (output_vectors_std prev frameIndex pts pt mvs w h).2 =
        [aggregate (initFrame frameIndex pts pt w h) mvs]) := by
  constructor
  · intro w h n pts pt
    have h0 := runStd_replicate_empty_length w h pts pt n ([], [])
    simpa [runStd] using h0
  · intro prev frameIndex pts pt mvs w h hne
    exact output_vectors_std_buffer_of_nonempty prev frameIndex pts pt mvs w h hne

/-- Witness for the amended claim C3: three empty frames leave three
buffered entries, and a non-empty frame resets the buffer to one. -/
theorem c3_buffer_unbounded_witness :
    (runStd 16 16 (List.replicate 3 ⟨1, 0, 'B', []⟩)).2.length = 3 ∧
    (output_vectors_std [] 1 0 'P' [⟨0, 0, -1, 0⟩] 16 16).2 =
      [aggregate (initFrame 1 0 'P' 16 16) [⟨0, 0, -1, 0⟩]] :=
  ⟨c3_buffer_unbounded.1 16 16 3 0 'B',
   c3_buffer_unbounded.2 [] 1 0 'P' [⟨0, 0, -1, 0⟩] 16 16 (by decide)⟩

/-- Claim C6 counterexample: a one frame stream whose only frame has a
vector.  The whole grid mode run prints frames with indices 1, 1, -1:
at end of stream the buffer holds only the index 1 frame, yet the flush
call also prints a synthetic frame with index -1, built from the stale
vector list of the last decoded frame - a frame that was never a
buffered entry. -/
theorem c6_counterexample :
    ((main_grid 16 16 [(0, 'P', [⟨0, 0, -1, 0⟩])]).map FrameInfo.FrameIndex) = [1, 1, -1] ∧
    ((runStd 16 16 [⟨1, 0, 'P', [⟨0, 0, -1, 0⟩]⟩]).2.map FrameInfo.FrameIndex) = [1] ∧
    ((-1 : Int) ≠ 1) := by decide

/-- Claim C6 (amended): the end of stream flush re-runs the normal
arrival logic on the stale vector list of the last decoded frame.  If
that list is empty, exactly the buffered frames are emitted, unchanged
and in buffer order, with no interpolation.  If it is non-empty (so the
buffer holds the single frame that arrived last), the buffered frame is
emitted unchanged followed by one extra synthetic frame with frame
index -1 aggregated from the stale list. -/
theorem c6_flush_behavior (buf : List FrameInfo) (pts : Int) (pt : Char) (w h : Nat) :
    ((output_vectors_std buf (-1) pts pt [] w h).1 = buf) ∧
    (∀ (a : FrameInfo) (mvs : List AVMotionVector), mvs ≠ [] →
      (output_vectors_std [a] (-1) pts pt mvs w h).1 =
        [a, aggregate (initFrame (-1) pts pt w h) mvs]) := by
  constructor
  · simp [output_vectors_std]
  · intro a mvs hne
    have hE : mvs.isEmpty = false := by
      cases mvs with
      | nil => exact absurd rfl hne
      | cons x xs => rfl
    simp [output_vectors_std, hE]

/-- Witness for the amended claim C6: an empty stale list flushes the
buffer unchanged, a non-empty stale list appends the synthetic index -1
frame. -/
theorem c6_flush_behavior_witness :
    (output_vectors_std [] (-1) 0 'P' [] 16 16).1 = [] ∧
    (output_vectors_std [initFrame 1 0 'P' 16 16] (-1) 0 'P' [⟨0, 0, -1, 0⟩] 16 16).1 =
      [initFrame 1 0 'P' 16 16, aggregate (initFrame (-1) 0 'P' 16 16) [⟨0, 0, -1, 0⟩]] :=
  ⟨(c6_flush_behavior [] 0 'P' 16 16).1,
   (c6_flush_behavior [] 0 'P' 16 16).2 (initFrame 1 0 'P' 16 16) [⟨0, 0, -1, 0⟩]
     (by decide)⟩

/-- Helper: a frame aggregated from at least one vector has
Empty = false. -/
theorem aggregate_cons_Empty (f : FrameInfo) (mv : AVMotionVector)
    (rest : List AVMotionVector) :
    (aggregate f (mv :: rest)).Empty = false := by
  suffices h : ∀ (l : List AVMotionVector) (g : FrameInfo), g.Empty = false →
      (l.foldl writeVector g).Empty = false by
    exact h rest (writeVector f mv) rfl
  intro l
  induction l with
  | nil => intro g hg; exact hg
  | cons x xs ih => intro g _; exact ih (writeVector g x) rfl

/-- Helper: one call of output_vectors_std preserves the invariant that
every buffered entry but the first has Empty = true. -/
theorem buffer_tail_empty_step (prev : List FrameInfo) (frameIndex pts : Int)
    (pt : Char) (mvs : List AVMotionVector) (w h : Nat)
    (hprev : ∀ f ∈ prev.drop 1, f.Empty = true) :
    ∀ f ∈ ((output_vectors_std prev frameIndex pts pt mvs w h).2).drop 1,
      f.Empty = true := by
  by_cases hne : mvs = []
  · subst hne
    rw [output_vectors_std_buffer_of_empty]
    intro f hf
    rcases prev with _ | ⟨p, ps⟩
    · simp at hf
    · simp only [List.cons_append, List.drop_one, List.tail_cons] at hf
      rcases List.mem_append.mp hf with hf1 | hf2
      · exact hprev f hf1
      · have : f = initFrame frameIndex pts pt w h := by simpa using hf2
        rw [this]; rfl
  · rw [output_vectors_std_buffer_of_nonempty prev frameIndex pts pt mvs w h hne]
    intro f hf
    simp at hf

/-- Helper: the tail of the buffer of a whole run consists of frames
with Empty = true. -/
theorem runStd_buffer_tail_empty (w h : Nat) (inputs : List ArrivalInput) :
    ∀ acc : List FrameInfo × List FrameInfo,
      (∀ f ∈ acc.2.drop 1, f.Empty = true) →
      ∀ f ∈ (List.foldl (stdFold w h) acc inputs).2.drop 1, f.Empty = true := by
  induction inputs with
  | nil => intro acc hacc; simpa using hacc
  | cons inp rest ih =>
    intro acc hacc
    rw [List.foldl_cons]
    exact ih (stdFold w h acc inp)
      (buffer_tail_empty_step acc.2 inp.frameIndex inp.pts inp.pictType inp.mvs w h hacc)

/-- Claim C10: whenever the buffer of a run holds exactly two entries,
the second (most recently buffered) entry has Empty = true; since an
aggregated frame has Empty = true exactly when its vector list was
empty, the frame whose grid interpolation would overwrite carried no
vectors of its own. -/
theorem c10_second_buffer_entry_empty (w h : Nat) (inputs : List ArrivalInput)
    (a b : FrameInfo) (hbuf : (runStd w h inputs).2 = [a, b]) :
    b.Empty = true ∧
    (∀ (frameIndex pts : Int) (pt : Char) (mvs : List AVMotionVector),
      b = aggregate (initFrame frameIndex pts pt w h) mvs → mvs = []) := by
  have hinv := runStd_buffer_tail_empty w h inputs ([], []) (by simp)
  have hb : b.Empty = true := by
    apply hinv b
    rw [show (List.foldl (stdFold w h) ([], []) inputs).2 = [a, b] from hbuf]
    simp
  refine ⟨hb, fun frameIndex pts pt mvs hbe => ?_⟩
  cases mvs with
  | nil => rfl
  | cons mv rest =>
    exfalso
    have hfalse := aggregate_cons_Empty (initFrame frameIndex pts pt w h) mv rest
    rw [← hbe, hb] at hfalse
    exact Bool.noConfusion hfalse

/-- Witness for claim C10 at a two frame run: a non-empty frame followed
by an empty frame leaves a buffer of two entries whose second is
empty. -/
theorem c10_second_buffer_entry_empty_witness :
    (initFrame 2 1 'B' 16 16).Empty = true :=
  (c10_second_buffer_entry_empty 16 16
      [⟨1, 0, 'P', [⟨0, 0, -1, 0⟩]⟩, ⟨2, 1, 'B', []⟩]
      (aggregate (initFrame 1 0 'P' 16 16) [⟨0, 0, -1, 0⟩]) (initFrame 2 1 'B' 16 16)
      rfl).1

/-- Helper: writing a vector sets exactly its own cell of dx and dy to
the displacement of the vector. -/
theorem writeVector_dx_at (g : FrameInfo) (mv : AVMotionVector) (r c : Nat)
    (h : cellOf g.Shape mv = (r, c)) :
    (writeVector g mv).dx r c = mv.src_x - mv.dst_x ∧
    (writeVector g mv).dy r c = mv.src_y - mv.dst_y := by
  obtain ⟨hr, hc⟩ : r = clipIndex mv.src_y g.Shape.1 ∧ c = clipIndex mv.src_x g.Shape.2 := by
    have h1 := congrArg Prod.fst h
    have h2 := congrArg Prod.snd h
    simp [cellOf] at h1 h2
    exact ⟨h1.symm, h2.symm⟩
  subst hr
  subst hc
  constructor <;> simp [writeVector]

/-- Helper: writing a vector leaves every other cell of dx and dy
unchanged. -/
theorem writeVector_dx_ne (g : FrameInfo) (mv : AVMotionVector) (r c : Nat)
    (h : cellOf g.Shape mv ≠ (r, c)) :
    (writeVector g mv).dx r c = g.dx r c ∧ (writeVector g mv).dy r c = g.dy r c := by
  have hne : ¬ (r = clipIndex mv.src_y g.Shape.1 ∧ c = clipIndex mv.src_x g.Shape.2) := by
    intro hand
    apply h
    simp only [cellOf, Prod.mk.injEq]
    exact ⟨hand.1.symm, hand.2.symm⟩
  constructor <;> simp [writeVector, hne]

/-- Helper: the value of a cell after folding a vector list into a frame
whose shape is the given one: if no vector of the list lands in the
cell, the cell keeps its value; otherwise it holds the displacement of
the last vector of the list that lands in it. -/
theorem foldl_writeVector_cell (shape : Nat × Nat) (r c : Nat) :
    ∀ (mvs : List AVMotionVector) (g : FrameInfo), g.Shape = shape →
      ((mvs.filter (fun mv => decide (cellOf shape mv = (r, c)))) = [] →
        (mvs.foldl writeVector g).dx r c = g.dx r c ∧
        (mvs.foldl writeVector g).dy r c = g.dy r c) ∧
      (∀ v, (mvs.filter (fun mv => decide (cellOf shape mv = (r, c)))).getLast? = some v →
        (mvs.foldl writeVector g).dx r c = v.src_x - v.dst_x ∧
        (mvs.foldl writeVector g).dy r c = v.src_y - v.dst_y) := by
  intro mvs
  induction mvs with
  | nil =>
    intro g _
    refine ⟨fun _ => ⟨rfl, rfl⟩, fun v hv => ?_⟩
    simp at hv
  | cons mv rest ih =>
    intro g hg
    have hg' : (writeVector g mv).Shape = shape := hg
    by_cases hc : cellOf shape mv = (r, c)
    · have hfil : (mv :: rest).filter (fun mv => decide (cellOf shape mv = (r, c)))
          = mv :: rest.filter (fun mv => decide (cellOf shape mv = (r, c))) := by
        simp [List.filter_cons, hc]
      have hat := writeVector_dx_at g mv r c (by rw [hg]; exact hc)
      constructor
      · intro hnil
        rw [hfil] at hnil
        exact absurd hnil (by simp)
      · intro v hv
        rw [hfil] at hv
        rcases hrest : rest.filter (fun mv => decide (cellOf shape mv = (r, c)))
          with _ | ⟨x, xs⟩
        · rw [hrest] at hv
          have hvm : mv = v := by simpa using hv
          subst hvm
          have h1 := (ih (writeVector g mv) hg').1 hrest
          rw [List.foldl_cons]
          exact ⟨h1.1.trans hat.1, h1.2.trans hat.2⟩
        · rw [hrest, List.getLast?_cons_cons] at hv
          have h2 := (ih (writeVector g mv) hg').2 v (by rw [hrest]; exact hv)
          rw [List.foldl_cons]
          exact h2
    · have hfil : (mv :: rest).filter (fun mv => decide (cellOf shape mv = (r, c)))
          = rest.filter (fun mv => decide (cellOf shape mv = (r, c))) := by
        simp [List.filter_cons, hc]
      have hmiss := writeVector_dx_ne g mv r c (by rw [hg]; exact hc)
      constructor
      · intro hnil
        rw [hfil] at hnil
        have h1 := (ih (writeVector g mv) hg').1 hnil
        rw [List.foldl_cons]
        exact ⟨h1.1.trans hmiss.1, h1.2.trans hmiss.2⟩
      · intro v hv
        rw [hfil] at hv
        have h2 := (ih (writeVector g mv) hg').2 v hv
        rw [List.foldl_cons]
        exact h2

/-- Claim C8: in an aggregated frame, a cell in which no vector of the
list lands keeps the value 0, and a cell in which at least one vector
lands holds the displacement of the last such vector in original list
order - vectors landing in the same cell are never accumulated or
averaged. -/
theorem c8_last_write_wins (frameIndex pts : Int) (pt : Char) (w h : Nat)
    (mvs : List AVMotionVector) (r c : Nat) :
    ((mvs.filter (fun mv =>
        decide (cellOf (min (h / 16) 512, min (w / 16) 512) mv = (r, c)))) = [] →
      (aggregate (initFrame frameIndex pts pt w h) mvs).dx r c = 0 ∧
      (aggregate (initFrame frameIndex pts pt w h) mvs).dy r c = 0) ∧
    (∀ v, (mvs.filter (fun mv =>
        decide (cellOf (min (h / 16) 512, min (w / 16) 512) mv = (r, c)))).getLast?
          = some v →
      (aggregate (initFrame frameIndex pts pt w h) mvs).dx r c = v.src_x - v.dst_x ∧
      (aggregate (initFrame frameIndex pts pt w h) mvs).dy r c = v.src_y - v.dst_y) :=
  foldl_writeVector_cell (min (h / 16) 512, min (w / 16) 512) r c mvs
    (initFrame frameIndex pts pt w h) rfl

/-- Witness for claim C8: two vectors landing in cell (0, 0) of a one
cell grid, the emitted value is the displacement of the second; a cell
no vector lands in stays 0. -/
theorem c8_last_write_wins_witness :
    (aggregate (initFrame 1 0 'P' 16 16) [⟨0, 0, -1, 0⟩, ⟨3, 3, 5, 2⟩]).dx 0 0 = 3 - 5 ∧
    (aggregate (initFrame 1 0 'P' 16 16) [⟨0, 0, -1, 0⟩, ⟨3, 3, 5, 2⟩]).dy 0 0 = 3 - 2 ∧
    (aggregate (initFrame 1 0 'P' 16 16) [⟨7, 7, 7, 7⟩]).dx 0 1 = 0 := by
  refine ⟨?_, ?_, ?_⟩
  · exact ((c8_last_write_wins 1 0 'P' 16 16 [⟨0, 0, -1, 0⟩, ⟨3, 3, 5, 2⟩] 0 0).2
      ⟨3, 3, 5, 2⟩ (by decide)).1
  · exact ((c8_last_write_wins 1 0 'P' 16 16 [⟨0, 0, -1, 0⟩, ⟨3, 3, 5, 2⟩] 0 0).2
      ⟨3, 3, 5, 2⟩ (by decide)).2
  · exact ((c8_last_write_wins 1 0 'P' 16 16 [⟨7, 7, 7, 7⟩] 0 1).1 (by decide)).1

/-- Helper: every size the container loop feeds to the decoder is the
full size of a packet from the container list, or the size of the stale
pkt field fed once at end of stream - never a partial remainder. -/
theorem drainLoop_feeds (dec : Nat → DecodeResult) (vidIdx : Int) :
    ∀ (pkts : List Packet) (s : RPState),
      ∀ t ∈ (drainLoop dec vidIdx s pkts).2.2.2,
        t = s.pkt.size ∨ t ∈ pkts.map Packet.size := by
  intro pkts
  induction pkts with
  | nil =>
    intro s t ht
    simp only [drainLoop, List.mem_singleton] at ht
    exact Or.inl ht
  | cons p rest ih =>
    intro s t ht
    by_cases hs : p.stream_index ≠ vidIdx
    · rw [show drainLoop dec vidIdx s (p :: rest)
          = drainLoop dec vidIdx { s with pkt := p, pktCopy := p, initialized := false }
            rest from by simp [drainLoop, hs]] at ht
      rcases ih _ t ht with h1 | h2
      · exact Or.inr (by simp at h1; simp [h1])
      · exact Or.inr (by simp [h2])
    · by_cases hg : (process_frame (dec s.k) p).2 = true
      · have heq : (drainLoop dec vidIdx s (p :: rest)).2.2.2 = [p.size] := by
          simp [drainLoop, hs, hg]
        rw [heq] at ht
        simp only [List.mem_singleton] at ht
        exact Or.inr (by simp [ht])
      · have hgf : (process_frame (dec s.k) p).2 = false := by
          simpa using hg
        have heq : (drainLoop dec vidIdx s (p :: rest)).2.2.2
            = p.size :: (drainLoop dec vidIdx
                ⟨false, p, (process_frame (dec s.k) p).1, s.k + 1⟩ rest).2.2.2 := by
          simp [drainLoop, hs, hgf]
        rw [heq] at ht
        rcases List.mem_cons.mp ht with rfl | ht2
        · exact Or.inr (by simp)
        · rcases ih _ t ht2 with h1 | h2
          · exact Or.inr (by simp at h1; simp [h1])
          · exact Or.inr (by simp [h2])

/-- Claim C5 counterexample: two packets of the target stream of sizes
3 and 5, a decoder whose first attempt consumes one byte and produces
no frame.  After that attempt two bytes of the first packet remain, yet
the sizes fed to the decoder are 3 and then 5: the remaining two bytes
are never fed again, the packet is discarded at once and the next
container packet is requested, against what the claim states. -/
theorem c5_counterexample :
    (process_frame (c5dec 0) ⟨0, 3⟩).1.size = 2 ∧
    (process_frame (c5dec 0) ⟨0, 3⟩).2 = false ∧
    (read_packets c5dec 0 ⟨false, ⟨0, 0⟩, ⟨0, 0⟩, 0⟩ [⟨0, 3⟩, ⟨0, 5⟩]).2.2.2 = [3, 5] ∧
    (read_packets c5dec 0 ⟨false, ⟨0, 0⟩, ⟨0, 0⟩, 0⟩ [⟨0, 3⟩, ⟨0, 5⟩]).1 = true ∧
    ¬ (2 ∈ (read_packets c5dec 0 ⟨false, ⟨0, 0⟩, ⟨0, 0⟩, 0⟩ [⟨0, 3⟩, ⟨0, 5⟩]).2.2.2) := by
  decide

/-- Claim C5 (amended): a packet is re-fed its remaining bytes only
while attempts on it keep producing frames (across successive calls).
The moment an attempt produces no frame the packet is discarded, even
when bytes remain: the call continues with the container loop on the
unchanged packet list, and every size fed from then on is the full size
of a later container packet (or the stale pkt size at end of stream),
never the remaining bytes of the discarded packet. -/
theorem c5_packet_dropped_on_frameless_attempt (dec : Nat → DecodeResult) (vidIdx : Int)
    (s : RPState) (pkts : List Packet)
    (hinit : s.initialized = true)
    (hfail : (process_frame (dec s.k) s.pktCopy).2 = false) :
    (read_packets dec vidIdx s pkts =
      ((drainLoop dec vidIdx (afterFailState dec s) pkts).1,
       (drainLoop dec vidIdx (afterFailState dec s) pkts).2.1,
       (drainLoop dec vidIdx (afterFailState dec s) pkts).2.2.1,
       s.pktCopy.size :: (drainLoop dec vidIdx (afterFailState dec s) pkts).2.2.2)) ∧
    (∀ t ∈ (drainLoop dec vidIdx (afterFailState dec s) pkts).2.2.2,
      t = s.pkt.size ∨ t ∈ pkts.map Packet.size) := by
  constructor
  · simp [read_packets, afterFailState, hinit, hfail]
  · intro t ht
    have h0 := drainLoop_feeds dec vidIdx pkts (afterFailState dec s) t ht
    simpa [afterFailState] using h0

/-- Witness for the amended claim C5 at the concrete scenario of the
counterexample, resumed from an initialized state. -/
theorem c5_packet_dropped_on_frameless_attempt_witness :
    read_packets c5dec 0 ⟨true, ⟨0, 3⟩, ⟨0, 3⟩, 0⟩ [⟨0, 5⟩] =
      ((drainLoop c5dec 0 (afterFailState c5dec ⟨true, ⟨0, 3⟩, ⟨0, 3⟩, 0⟩) [⟨0, 5⟩]).1,
       (drainLoop c5dec 0 (afterFailState c5dec ⟨true, ⟨0, 3⟩, ⟨0, 3⟩, 0⟩) [⟨0, 5⟩]).2.1,
       (drainLoop c5dec 0 (afterFailState c5dec ⟨true, ⟨0, 3⟩, ⟨0, 3⟩, 0⟩) [⟨0, 5⟩]).2.2.1,
       3 :: (drainLoop c5dec 0 (afterFailState c5dec ⟨true, ⟨0, 3⟩, ⟨0, 3⟩, 0⟩)
          [⟨0, 5⟩]).2.2.2) :=
  (c5_packet_dropped_on_frameless_attempt c5dec 0 ⟨true, ⟨0, 3⟩, ⟨0, 3⟩, 0⟩ [⟨0, 5⟩]
      rfl (by decide)).1

end Mpegflow
